import Mathlib

/-!
Verification of the AEDAT4 decoder (src/base.rs) against its design
specification.  The decoder's state and operations are embedded shallowly:
byte sources become lists of bytes (each a Nat below 256), the read_exact
primitive becomes a pure function on such lists, and the external
collaborators (flatbuffer header accessor, XML tree parse, LZ4 and Zstd
codecs, flatbuffer identifier check) become fields of an Externals record,
since they live outside this repository.  All other logic is translated
line by line from src/base.rs.
-/

namespace Aedat

/-- ParseError mirrors the error enumeration of base.rs lines 33-54.
The variants carrying foreign payloads (FlatBuffer, Utf8, RoxmlTree,
ParseInt, Io) are modelled as bare constructors since only their identity
matters to the decoder logic. -/
inductive ParseError where
  | general (msg : String)
  | unsupportedStreamType (msg : String)
  | flatBufferErr
  | utf8Err
  | xmlErr
  | parseIntErr
  | ioErr
  deriving DecidableEq

/-- StreamContent mirrors base.rs lines 61-67. -/
inductive StreamContent where
  | events
  | frame
  | imus
  | triggers
  deriving DecidableEq

/-- StreamContent.fromId mirrors StreamContent::from, base.rs lines 70-78.
Note the error carries the fixed text "unsupported stream type", not the
offending identifier. -/
def StreamContent.fromId (identifier : String) : Except ParseError StreamContent :=
  if identifier = "EVTS" then .ok .events
  else if identifier = "FRME" then .ok .frame
  else if identifier = "IMUS" then .ok .imus
  else if identifier = "TRIG" then .ok .triggers
  else .error (.unsupportedStreamType "unsupported stream type")

/-- StreamContent.toString mirrors the Display implementation, base.rs lines 81-94. -/
def StreamContent.toString : StreamContent → String
  | .events => "EVTS"
  | .frame => "FRME"
  | .imus => "IMUS"
  | .triggers => "TRIG"

/-- Stream mirrors base.rs lines 96-100; width and height are u16 values,
kept as Nat with the parse bounding them below 65536. -/
structure Stream where
  content : StreamContent
  width : Nat
  height : Nat
  deriving DecidableEq

/-- Packet mirrors base.rs lines 283-286. -/
structure Packet where
  buffer : List Nat
  stream_id : Nat
  deriving DecidableEq

/-- Modelled from the spec: the generated file ioheader_generated.rs is not
under src/.  Per the spec the header message exposes the enumeration
compression with members None, LZ4, LZ4High, Zstd, ZstdHigh; flatbuffer
enums are small integers in declaration order, so the codes are 0 to 4,
carried as the signed machine integer the generated type wraps. -/
def CompressionNone : Int := 0

/-- Compression code of the LZ4 member (see CompressionNone). -/
def CompressionLz4 : Int := 1

/-- Compression code of the LZ4High member (see CompressionNone). -/
def CompressionLz4High : Int := 2

/-- Compression code of the Zstd member (see CompressionNone). -/
def CompressionZstd : Int := 3

/-- Compression code of the ZstdHigh member (see CompressionNone). -/
def CompressionZstdHigh : Int := 4

/-- Modelled from the spec: ioheader_generated.rs is not under src/; the
IOHeader message exposes exactly three read accessors (spec section 6):
compression, file_data_position (signed 64-bit, -1 meaning unknown), and
description (optional text). -/
structure IOHeader where
  compression : Int
  file_data_position : Int
  description : Option String

/-- XmlNode models the read-only XML document tree of the roxmltree
collaborator: element nodes with a tag name, attributes and children, and
text nodes. -/
inductive XmlNode where
  | element (tag : String) (attrs : List (String × String)) (children : List XmlNode)
  | text (content : String)

/-- Children of a node; text nodes have none. -/
def XmlNode.childrenList : XmlNode → List XmlNode
  | .element _ _ children => children
  | .text _ => []

/-- Whether the node is an element (roxmltree is_element). -/
def XmlNode.isElement : XmlNode → Bool
  | .element _ _ _ => true
  | .text _ => false

/-- Tag-name test (roxmltree has_tag_name). -/
def XmlNode.hasTagNameB (n : XmlNode) (t : String) : Bool :=
  match n with
  | .element tag _ _ => tag == t
  | .text _ => false

/-- Attribute lookup by key (roxmltree attribute). -/
def XmlNode.attrValue (n : XmlNode) (key : String) : Option String :=
  match n with
  | .element _ attrs _ => (attrs.find? (fun p => p.1 == key)).map Prod.snd
  | .text _ => none

/-- Text content (roxmltree text): for an element, the content of its first
child when that child is a text node; for a text node, its own content. -/
def XmlNode.textContent : XmlNode → Option String
  | .element _ _ (XmlNode.text s :: _) => some s
  | .element _ _ _ => none
  | .text s => some s

/-- XmlDocument models a parsed roxmltree document: the children of the
synthetic root node.  document.root().first_child() is the head of this list. -/
structure XmlDocument where
  rootChildren : List XmlNode

/-- External collaborators of the decoder, all outside this repository:
the flatbuffer header accessor (spec section 6, used unchecked in base.rs
line 175), the roxmltree parse, the two codecs, and the flatbuffer
buffer-identifier check. -/
structure Externals where
  root_as_ioheader : List Nat → IOHeader
  xml_parse : String → Except Unit XmlDocument
  lz4_decode : List Nat → Except Unit (List Nat)
  zstd_decode : List Nat → Except Unit (List Nat)
  buffer_has_identifier : List Nat → String → Bool

/-- Decoder mirrors base.rs lines 102-108; the Source trait object becomes
the list of bytes not yet consumed, kept in the field named file as in the
source.  The registry HashMap becomes an association list. -/
structure Decoder where
  id_to_stream : List (Nat × Stream)
  file : List Nat
  position : Int
  compression : Int
  file_data_position : Int

/-- Registry lookup, mirroring HashMap::get for the association-list model. -/
def lookupStream (registry : List (Nat × Stream)) (id : Nat) : Option Stream :=
  (registry.find? (fun p => p.1 == id)).map Prod.snd

/-- read_exact models std::io::Read::read_exact on a list source: it yields
exactly n bytes and the remainder, or fails when fewer are available. -/
def read_exact (n : Nat) (input : List Nat) : Option (List Nat × List Nat) :=
  if n ≤ input.length then some (input.take n, input.drop n) else none

/-- Little-endian u32 decoding of a 4-byte buffer (u32::from_le_bytes). -/
def u32_from_le_bytes : List Nat → Nat
  | [a, b, c, d] => a + 256 * b + 65536 * c + 16777216 * d
  | _ => 0

/-- Little-endian 4-byte encoding of a u32 value, used to describe inputs. -/
def le4 (n : Nat) : List Nat :=
  [n % 256, n / 256 % 256, n / 65536 % 256, n / 16777216 % 256]

/-- MAGIC_NUMBER of base.rs line 28 as its UTF-8 bytes:
the ASCII text of hash, bang, AER-DAT4.0, CR, LF. -/
def magicBytes : List Nat :=
  [35, 33, 65, 69, 82, 45, 68, 65, 84, 52, 46, 48, 13, 10]

/-- Second-byte constraint of a three-byte UTF-8 sequence (surrogate and
overlong exclusions, as enforced by str::from_utf8). -/
def utf8cont2 (b b1 : Nat) : Bool :=
  if b = 224 then decide (160 ≤ b1 ∧ b1 < 192)
  else if b = 237 then decide (128 ≤ b1 ∧ b1 < 160)
  else decide (128 ≤ b1 ∧ b1 < 192)

/-- Second-byte constraint of a four-byte UTF-8 sequence (range and
overlong exclusions, as enforced by str::from_utf8). -/
def utf8cont3 (b b1 : Nat) : Bool :=
  if b = 240 then decide (144 ≤ b1 ∧ b1 < 192)
  else if b = 244 then decide (128 ≤ b1 ∧ b1 < 144)
  else decide (128 ≤ b1 ∧ b1 < 192)

/-- UTF-8 validity of a byte list, as decided by str::from_utf8. -/
def utf8_valid : List Nat → Bool
  | [] => true
  | b :: rest =>
    if b < 128 then utf8_valid rest
    else if b < 194 then false
    else if b < 224 then
      match rest with
      | b1 :: rest2 => decide (128 ≤ b1 ∧ b1 < 192) && utf8_valid rest2
      | [] => false
    else if b < 240 then
      match rest with
      | b1 :: b2 :: rest3 =>
        utf8cont2 b b1 && decide (128 ≤ b2 ∧ b2 < 192) && utf8_valid rest3
      | _ => false
    else if b < 245 then
      match rest with
      | b1 :: b2 :: b3 :: rest4 =>
        utf8cont3 b b1 && decide (128 ≤ b2 ∧ b2 < 192)
          && decide (128 ≤ b3 ∧ b3 < 192) && utf8_valid rest4
      | _ => false
    else false

/-- Digit-string value: all characters must be ASCII digits and at least
one must be present. -/
def parseNatDigits (cs : List Char) : Option Nat :=
  if cs = [] then none
  else if cs.all Char.isDigit then
    some (cs.foldl (fun a c => a * 10 + (c.toNat - 48)) 0)
  else none

/-- rust_parse models str::parse for an unsigned integer type of upper
bound b: an optional leading plus sign, then decimal digits, rejecting
empty input, foreign characters and overflow. -/
def rust_parse (b : Nat) (s : String) : Except ParseError Nat :=
  let cs :=
    match s.data with
    | '+' :: rest => rest
    | cs => cs
  match parseNatDigits cs with
  | none => .error .parseIntErr
  | some n => if n < b then .ok n else .error .parseIntErr

/-- parse::{u32} of the stream id attribute. -/
def rust_parse_u32 (s : String) : Except ParseError Nat := rust_parse 4294967296 s

/-- parse::{u16} of the sizeX and sizeY attributes. -/
def rust_parse_u16 (s : String) : Except ParseError Nat := rust_parse 65536 s

/-- Search of base.rs lines 190-197: the element child of the dv node with
tag node and attribute name equal to outInfo. -/
def findOutputNode (dv_node : XmlNode) : Option XmlNode :=
  dv_node.childrenList.find? (fun node =>
    node.isElement && node.hasTagNameB "node" && node.attrValue "name" == some "outInfo")

/-- Search of base.rs lines 208-212 and 233-255: the element child with tag
attr and the given key attribute. -/
def findAttrNode (n : XmlNode) (key : String) : Option XmlNode :=
  n.childrenList.find? (fun node =>
    node.isElement && node.hasTagNameB "attr" && node.attrValue "key" == some key)

/-- Search of base.rs lines 225-232: the element child with tag node and
attribute name equal to info. -/
def findInfoNode (n : XmlNode) : Option XmlNode :=
  n.childrenList.find? (fun node =>
    node.isElement && node.hasTagNameB "node" && node.attrValue "name" == some "info")

/-- Width and height extraction of base.rs lines 222-257: only identifiers
EVTS and FRME consult the info node; every other identifier leaves both at 0. -/
def readDimensions (stream_node : XmlNode) (identifier : String) :
    Except ParseError (Nat × Nat) :=
  if identifier = "EVTS" ∨ identifier = "FRME" then
    match findInfoNode stream_node with
    | none => .error (.general "missing info node")
    | some info_node =>
      match findAttrNode info_node "sizeX" with
      | none => .error (.general "missing sizeX attribute")
      | some nx =>
        match nx.textContent with
        | none => .error (.general "empty sizeX attribute")
        | some sx =>
          match rust_parse_u16 sx with
          | .error e => .error e
          | .ok width =>
            match findAttrNode info_node "sizeY" with
            | none => .error (.general "missing sizeX attribute")
            | some ny =>
              match ny.textContent with
              | none => .error (.general "empty sizeX attribute")
              | some sy =>
                match rust_parse_u16 sy with
                | .error e => .error e
                | .ok height => .ok (width, height)
  else .ok (0, 0)

/-- Body of the stream-node loop, base.rs lines 198-272, for one child of
the output node.  Children that are not elements tagged node are skipped.
The duplicate check mirrors HashMap::insert returning Some.  The inner tag
recheck of lines 200-202 is unreachable under the guard and is omitted. -/
def processStreamNode (registry : List (Nat × Stream)) (stream_node : XmlNode) :
    Except ParseError (List (Nat × Stream)) :=
  if stream_node.isElement && stream_node.hasTagNameB "node" then
    match stream_node.attrValue "name" with
    | none => .error (.general "missing stream node id")
    | some name_text =>
      match rust_parse_u32 name_text with
      | .error e => .error e
      | .ok stream_id =>
        match findAttrNode stream_node "typeIdentifier" with
        | none => .error (.general "missing stream node type identifier")
        | some id_attr =>
          match id_attr.textContent with
          | none => .error (.general "empty stream node type identifier")
          | some identifier =>
            match readDimensions stream_node identifier with
            | .error e => .error e
            | .ok wh =>
              match StreamContent.fromId identifier with
              | .error e => .error e
              | .ok content =>
                if (lookupStream registry stream_id).isSome then
                  .error (.general "duplicated stream id")
                else
                  .ok (registry ++ [(stream_id,
                    { content := content, width := wh.1, height := wh.2 })])
  else .ok registry

/-- Fold of processStreamNode over the children of the output node, with
the early returns of the source loop. -/
def processStreamNodes :
    List XmlNode → List (Nat × Stream) → Except ParseError (List (Nat × Stream))
  | [], registry => .ok registry
  | node :: rest, registry =>
    match processStreamNode registry node with
    | .error e => .error e
    | .ok registry2 => processStreamNodes rest registry2

/-- read_io_header mirrors base.rs lines 165-280: length-prefixed header
record, flatbuffer accessors (compression and file_data_position are
assigned unconditionally, lines 176-177), description requirement, XML
traversal populating the registry, and the final emptiness check. -/
def read_io_header (E : Externals) (decoder : Decoder) : Except ParseError Decoder :=
  match read_exact 4 decoder.file with
  | none => .error .ioErr
  | some (bytes, rest) =>
    let length := u32_from_le_bytes bytes
    let d1 : Decoder :=
      { decoder with position := decoder.position + 4 + (length : Int), file := rest }
    match read_exact length d1.file with
    | none => .error .ioErr
    | some (buffer, rest2) =>
      let ioheader := E.root_as_ioheader buffer
      let d2 : Decoder :=
        { d1 with
          file := rest2
          compression := ioheader.compression
          file_data_position := ioheader.file_data_position }
      match ioheader.description with
      | none => .error (.general "the description is empty")
      | some description =>
        match E.xml_parse description with
        | .error _ => .error .xmlErr
        | .ok document =>
          match document.rootChildren.head? with
          | none => .error (.general "the description has no dv node")
          | some dv_node =>
            if dv_node.hasTagNameB "dv" = false then
              .error (.general "unexpected dv node tag")
            else
              match findOutputNode dv_node with
              | none => .error (.general "the description has no output node")
              | some output_node =>
                match processStreamNodes output_node.childrenList d2.id_to_stream with
                | .error e => .error e
                | .ok registry =>
                  if registry.isEmpty then
                    .error (.general "no stream found in the description")
                  else
                    .ok { d2 with id_to_stream := registry }

/-- new_from_file mirrors base.rs lines 113-134.  The magic check models
from_utf8 followed by string comparison: a short read is an I/O error,
bytes that are not valid UTF-8 are a Utf8 error, and a valid decode is
compared with MAGIC_NUMBER, which (both being UTF-8 encodings) is byte
equality with magicBytes. -/
def new_from_file (E : Externals) (input : List Nat) : Except ParseError Decoder :=
  let decoder : Decoder :=
    { id_to_stream := [], file := input, position := 0,
      file_data_position := 0, compression := CompressionNone }
  match read_exact magicBytes.length decoder.file with
  | none => .error .ioErr
  | some (magic_number_buffer, rest) =>
    if utf8_valid magic_number_buffer = false then .error .utf8Err
    else if magic_number_buffer ≠ magicBytes then
      .error (.general "the file does not contain AEDAT4 data (wrong magic number)")
    else
      read_io_header E
        { decoder with file := rest,
                       position := decoder.position + (magicBytes.length : Int) }

/-- new_from_unix_stream mirrors base.rs lines 137-148: no magic check,
file_data_position initialized to the sentinel -1, then read_io_header. -/
def new_from_unix_stream (E : Externals) (input : List Nat) : Except ParseError Decoder :=
  read_io_header E
    { id_to_stream := [], file := input, position := 0,
      file_data_position := -1, compression := CompressionNone }

/-- new_from_tcp_stream mirrors base.rs lines 150-162, identical to the
Unix-stream constructor once the connection is a byte source. -/
def new_from_tcp_stream (E : Externals) (input : List Nat) : Except ParseError Decoder :=
  read_io_header E
    { id_to_stream := [], file := input, position := 0,
      file_data_position := -1, compression := CompressionNone }

/-- Compression dispatch of base.rs lines 318-343: None passes the raw
bytes through unchanged; Lz4 and Lz4High share one decoding branch, as do
Zstd and ZstdHigh; any other code is the unknown-compression error.  Codec
failures (construction or read_to_end) surface as the Io error kind. -/
def decompress (E : Externals) (compression : Int) (raw_buffer : List Nat) :
    Except ParseError (List Nat) :=
  if compression = CompressionNone then .ok raw_buffer
  else if compression = CompressionLz4 ∨ compression = CompressionLz4High then
    match E.lz4_decode raw_buffer with
    | .ok buffer => .ok buffer
    | .error _ => .error .ioErr
  else if compression = CompressionZstd ∨ compression = CompressionZstdHigh then
    match E.zstd_decode raw_buffer with
    | .ok buffer => .ok buffer
    | .error _ => .error .ioErr
  else .error (.general "unknown compression algorithm")

/-- Decoder.next mirrors Iterator::next, base.rs lines 291-356: the
termination check against file_data_position, the swallowed stream-id read,
the surfaced length read, the position advance by 8 plus the payload
length, the payload read, decompression, registry lookup and identifier
cross-validation.  The returned pair carries the yielded item and the
decoder state after the call. -/
def Decoder.next (E : Externals) (d : Decoder) :
    Option (Except ParseError Packet) × Decoder :=
  if d.file_data_position > -1 ∧ d.position = d.file_data_position then
    (none, d)
  else
    match read_exact 4 d.file with
    | none => (none, d)
    | some (idBytes, rest1) =>
      let stream_id := u32_from_le_bytes idBytes
      match read_exact 4 rest1 with
      | none => (some (.error .ioErr), { d with file := rest1 })
      | some (lenBytes, rest2) =>
        let length := u32_from_le_bytes lenBytes
        let d2 : Decoder :=
          { d with position := d.position + 8 + (length : Int), file := rest2 }
        match read_exact length d2.file with
        | none => (some (.error .ioErr), d2)
        | some (raw_buffer, rest3) =>
          let d3 : Decoder := { d2 with file := rest3 }
          match decompress E d3.compression raw_buffer with
          | .error e => (some (.error e), d3)
          | .ok buffer =>
            match lookupStream d3.id_to_stream stream_id with
            | none => (some (.error (.general "unknown stream id")), d3)
            | some stream =>
              if E.buffer_has_identifier buffer stream.content.toString then
                (some (.ok { buffer := buffer, stream_id := stream_id }), d3)
              else
                (some (.error (.general "the stream id and the identifier do not match")), d3)

/-- Iterated calls of Decoder.next, collecting the yielded items in order
and the final decoder state. -/
def runIter (E : Externals) : Nat → Decoder → List (Option (Except ParseError Packet)) × Decoder
  | 0, d => ([], d)
  | n + 1, d =>
    match Decoder.next E d with
    | (o, d1) =>
      match runIter E n d1 with
      | (os, d2) => (o :: os, d2)

/-- One framed packet record of the wire format: a stream id and a raw
payload (of the framed, possibly compressed bytes). -/
structure PacketRec where
  stream_id : Nat
  payload : List Nat

/-- Wire encoding of one record: 4-byte little-endian id, 4-byte
little-endian payload length, then the payload. -/
def encodeRecord (r : PacketRec) : List Nat :=
  le4 r.stream_id ++ (le4 r.payload.length ++ r.payload)

/-- Wire encoding of a record sequence. -/
def encodeRecords : List PacketRec → List Nat
  | [] => []
  | r :: rs => encodeRecord r ++ encodeRecords rs

/-- Total framed size of a record sequence: 8 header bytes plus the
payload length for each record. -/
def sizeRecords : List PacketRec → Nat
  | [] => 0
  | r :: rs => (8 + r.payload.length) + sizeRecords rs

/-- Decompressed buffer of a record under a compression mode, defaulting to
the empty list when decompression fails. -/
def recBuf (E : Externals) (compression : Int) (r : PacketRec) : List Nat :=
  match decompress E compression r.payload with
  | .ok buffer => buffer
  | .error _ => []

/-- Validity of one framed record with respect to a compression mode and a
registry: the id and payload length fit in u32, decompression succeeds,
the id is registered and the decompressed buffer carries the identifier of
the registered content kind. -/
def ValidRec (E : Externals) (compression : Int) (registry : List (Nat × Stream))
    (r : PacketRec) : Prop :=
  r.stream_id < 4294967296 ∧ r.payload.length < 4294967296 ∧
  decompress E compression r.payload = .ok (recBuf E compression r) ∧
  match lookupStream registry r.stream_id with
  | some stream => E.buffer_has_identifier (recBuf E compression r) stream.content.toString = true
  | none => False

/-! Concrete instances used by the closed witness and counterexample
theorems below. -/

/-- Stream node of the concrete description: stream id 0, type IMUS. -/
def streamNodeT : XmlNode :=
  XmlNode.element "node" [("name", "0")]
    [XmlNode.element "attr" [("key", "typeIdentifier")] [XmlNode.text "IMUS"]]

/-- Concrete well-formed description document with one IMUS stream of id 0. -/
def docT : XmlDocument :=
  ⟨[XmlNode.element "dv" []
     [XmlNode.element "node" [("name", "outInfo")] [streamNodeT]]]⟩

/-- Concrete externals: a header reporting compression None,
file_data_position 100 and a description that parses to docT; an LZ4 codec
succeeding only on the buffer holding 9; a Zstd codec succeeding only on
the buffer holding 8; an identifier check accepting exactly the EVTS tag
on the buffer of its four ASCII bytes. -/
def E0 : Externals :=
  { root_as_ioheader := fun _ =>
      { compression := 0, file_data_position := 100, description := some "doc" }
    xml_parse := fun _ => .ok docT
    lz4_decode := fun raw => if raw = [9] then .ok [7, 7] else .error ()
    zstd_decode := fun raw => if raw = [8] then .ok [6, 6] else .error ()
    buffer_has_identifier := fun buffer tag => buffer == [69, 86, 84, 83] && tag == "EVTS" }

/-- Concrete Events stream, 640 by 480. -/
def s0 : Stream := { content := .events, width := 640, height := 480 }

/-- Concrete framed record: stream id 0, payload the four ASCII bytes of EVTS. -/
def r0 : PacketRec := { stream_id := 0, payload := [69, 86, 84, 83] }

/-- Concrete seekable-source decoder holding exactly the record r0, with
file_data_position at the end of the packet section. -/
def d0 : Decoder :=
  { id_to_stream := [(0, s0)], file := encodeRecords [r0], position := 0,
    compression := CompressionNone, file_data_position := (sizeRecords [r0] : Int) }

/-- Decoder sitting exactly at its known end-of-data offset. -/
def dTerm : Decoder :=
  { id_to_stream := [], file := [], position := 5,
    compression := CompressionNone, file_data_position := 5 }

/-- Streaming-source decoder whose remaining input is 2 bytes. -/
def dShort1 : Decoder :=
  { id_to_stream := [], file := [1, 2], position := 0,
    compression := CompressionNone, file_data_position := -1 }

/-- Streaming-source decoder whose remaining input is 5 bytes: the id read
completes, the length read cannot. -/
def dShort2 : Decoder :=
  { id_to_stream := [], file := [1, 2, 3, 4, 5], position := 0,
    compression := CompressionNone, file_data_position := -1 }

/-- Decoder whose head record declares payload length 5 with only 2
payload bytes available. -/
def dTrunc : Decoder :=
  { id_to_stream := [], file := le4 7 ++ (le4 5 ++ [1, 2]), position := 0,
    compression := CompressionNone, file_data_position := -1 }

/-- Decoder with an empty registry facing a record of stream id 7. -/
def dNoReg : Decoder :=
  { id_to_stream := [], file := le4 7 ++ (le4 1 ++ ([0] ++ [])), position := 0,
    compression := CompressionNone, file_data_position := -1 }

/-- Decoder in LZ4 mode facing a payload its codec rejects. -/
def dLz4 : Decoder :=
  { id_to_stream := [], file := le4 7 ++ (le4 1 ++ ([0] ++ [])), position := 0,
    compression := CompressionLz4, file_data_position := -1 }

/-- Streaming decoder with the registry of d0 and the record r0 pending. -/
def dC5 : Decoder :=
  { id_to_stream := [(0, s0)], file := encodeRecords [r0], position := 0,
    compression := CompressionNone, file_data_position := -1 }

/-- Decoder whose registry declares stream 0 as Imus, so the EVTS-tagged
payload of r0 fails the identifier check. -/
def dMismatch : Decoder :=
  { id_to_stream := [(0, { content := .imus, width := 0, height := 0 })],
    file := encodeRecords [r0], position := 0,
    compression := CompressionNone, file_data_position := -1 }

/-- Decoder expected from the Unix-stream construction over E0 and the
4-byte input of a zero-length header record. -/
def dUnix : Decoder :=
  { id_to_stream := [(0, { content := .imus, width := 0, height := 0 })],
    file := [], position := 4,
    compression := 0, file_data_position := 100 }

/-- Description document declaring an outInfo node with no streams. -/
def docEmpty : XmlDocument :=
  ⟨[XmlNode.element "dv" [] [XmlNode.element "node" [("name", "outInfo")] []]]⟩

/-- Externals whose description parses to docEmpty. -/
def EEmpty : Externals :=
  { root_as_ioheader := fun _ =>
      { compression := 0, file_data_position := 100, description := some "doc" }
    xml_parse := fun _ => .ok docEmpty
    lz4_decode := fun _ => .error ()
    zstd_decode := fun _ => .error ()
    buffer_has_identifier := fun _ _ => false }

/-- Events-typed stream node without an info child. -/
def evtsNoInfo : XmlNode :=
  XmlNode.element "node" [("name", "1")]
    [XmlNode.element "attr" [("key", "typeIdentifier")] [XmlNode.text "EVTS"]]

/-- Info node carrying sizeX 640 and sizeY 480. -/
def infoNodeT : XmlNode :=
  XmlNode.element "node" [("name", "info")]
    [XmlNode.element "attr" [("key", "sizeX")] [XmlNode.text "640"],
     XmlNode.element "attr" [("key", "sizeY")] [XmlNode.text "480"]]

/-- Events-typed stream node with a complete info child. -/
def evtsFull : XmlNode :=
  XmlNode.element "node" [("name", "2")]
    [XmlNode.element "attr" [("key", "typeIdentifier")] [XmlNode.text "EVTS"],
     infoNodeT]

/-- Stream node with no typeIdentifier attr child. -/
def nodeNoType : XmlNode :=
  XmlNode.element "node" [("name", "3")] []

/-- Info node whose sizeY attr has no text child. -/
def infoEmptyY : XmlNode :=
  XmlNode.element "node" [("name", "info")]
    [XmlNode.element "attr" [("key", "sizeX")] [XmlNode.text "640"],
     XmlNode.element "attr" [("key", "sizeY")] []]

/-- Events-typed stream node whose info child has an empty sizeY value. -/
def evtsEmptyY : XmlNode :=
  XmlNode.element "node" [("name", "4")]
    [XmlNode.element "attr" [("key", "typeIdentifier")] [XmlNode.text "EVTS"],
     infoEmptyY]

/-- Info node whose sizeY value is not a number. -/
def infoBadY : XmlNode :=
  XmlNode.element "node" [("name", "info")]
    [XmlNode.element "attr" [("key", "sizeX")] [XmlNode.text "640"],
     XmlNode.element "attr" [("key", "sizeY")] [XmlNode.text "wide"]]

/-- Events-typed stream node whose info child has an unparseable sizeY value. -/
def evtsBadY : XmlNode :=
  XmlNode.element "node" [("name", "5")]
    [XmlNode.element "attr" [("key", "typeIdentifier")] [XmlNode.text "EVTS"],
     infoBadY]

/-! Helper lemmas about the byte-source primitives. -/

theorem read_exact_append (n : Nat) (xs ys : List Nat) (h : xs.length = n) :
    read_exact n (xs ++ ys) = some (xs, ys) := by
  subst h
  simp [read_exact, List.take_left, List.drop_left]

theorem read_exact_short (n : Nat) (input : List Nat) (h : input.length < n) :
    read_exact n input = none := by
  simp [read_exact]
  omega

theorem le4_length (n : Nat) : (le4 n).length = 4 := rfl

theorem u32_le4 (n : Nat) (h : n < 4294967296) : u32_from_le_bytes (le4 n) = n := by
  simp only [le4, u32_from_le_bytes]
  omega

/-- Computation of one iteration step on a source whose head is a complete
framed record: the framing is consumed, position advances by 8 plus the
payload length, and the outcome is decided by decompression, registry
lookup and the identifier check exactly as in base.rs lines 318-355. -/
theorem next_framed (E : Externals) (d : Decoder) (id L : Nat) (payload rest : List Nat)
    (hterm : ¬(d.file_data_position > -1 ∧ d.position = d.file_data_position))
    (hfile : d.file = le4 id ++ (le4 L ++ (payload ++ rest)))
    (hid : id < 4294967296) (hL : L < 4294967296) (hlen : payload.length = L) :
    Decoder.next E d =
      ((match decompress E d.compression payload with
        | .error e => some (.error e)
        | .ok buffer =>
          match lookupStream d.id_to_stream id with
          | none => some (.error (.general "unknown stream id"))
          | some stream =>
            if E.buffer_has_identifier buffer stream.content.toString then
              some (.ok { buffer := buffer, stream_id := id })
            else
              some (.error (.general "the stream id and the identifier do not match"))),
       { d with position := d.position + 8 + (L : Int), file := rest }) := by
  have h1 : read_exact 4 (le4 id ++ (le4 L ++ (payload ++ rest)))
      = some (le4 id, le4 L ++ (payload ++ rest)) :=
    read_exact_append 4 _ _ (le4_length id)
  have h2 : read_exact 4 (le4 L ++ (payload ++ rest)) = some (le4 L, payload ++ rest) :=
    read_exact_append 4 _ _ (le4_length L)
  have h3 : read_exact L (payload ++ rest) = some (payload, rest) :=
    read_exact_append L _ _ hlen
  simp only [Decoder.next, if_neg hterm, hfile, h1, h2, h3, u32_le4 id hid, u32_le4 L hL]
  cases hdec : decompress E d.compression payload with
  | error e => rfl
  | ok buffer =>
    cases hls : lookupStream d.id_to_stream id with
    | none => rfl
    | some stream =>
      by_cases hb : E.buffer_has_identifier buffer stream.content.toString = true
      · simp only [if_pos hb]
      · simp only [if_neg hb]

/-- C3: a failure to complete the 4-byte stream-id read yields clean
completion (None), never an error, with no condition on
file_data_position; once the stream id has been read, a failure to
complete the 4-byte length read is surfaced as the I/O error for that
call. -/
theorem C3_id_read_none_length_read_error :
    (∀ (E : Externals) (d : Decoder), d.file.length < 4 →
      (Decoder.next E d).1 = none) ∧
    (∀ (E : Externals) (d : Decoder),
      ¬(d.file_data_position > -1 ∧ d.position = d.file_data_position) →
      4 ≤ d.file.length → d.file.length < 8 →
      (Decoder.next E d).1 = some (.error .ioErr)) := by
  constructor
  · intro E d h
    by_cases hterm : d.file_data_position > -1 ∧ d.position = d.file_data_position
    · simp only [Decoder.next, if_pos hterm]
    · simp only [Decoder.next, if_neg hterm, read_exact_short 4 d.file h]
  · intro E d hterm h4 h8
    have h1 : read_exact 4 d.file = some (d.file.take 4, d.file.drop 4) := by
      simp only [read_exact, if_pos h4]
    have h2 : read_exact 4 (d.file.drop 4) = none := by
      refine read_exact_short 4 _ ?_
      simp only [List.length_drop]
      omega
    simp only [Decoder.next, if_neg hterm, h1, h2]

/-- C10: iteration-step errors and the position field: a failed length
read leaves position unchanged; a failed payload read, a decompression
failure, an unknown stream id and an identifier mismatch all leave
position advanced by 8 plus the declared payload length, while no packet
is yielded. -/
theorem C10_position_on_error :
    (∀ (E : Externals) (d : Decoder),
      ¬(d.file_data_position > -1 ∧ d.position = d.file_data_position) →
      4 ≤ d.file.length → d.file.length < 8 →
      (Decoder.next E d).1 = some (.error .ioErr) ∧
      (Decoder.next E d).2.position = d.position) ∧
    (∀ (E : Externals) (d : Decoder) (id L : Nat) (payload : List Nat),
      ¬(d.file_data_position > -1 ∧ d.position = d.file_data_position) →
      d.file = le4 id ++ (le4 L ++ payload) →
      L < 4294967296 → payload.length < L →
      (Decoder.next E d).1 = some (.error .ioErr) ∧
      (Decoder.next E d).2.position = d.position + 8 + (L : Int)) ∧
    (∀ (E : Externals) (d : Decoder) (id L : Nat) (payload rest : List Nat) (e : ParseError),
      ¬(d.file_data_position > -1 ∧ d.position = d.file_data_position) →
      d.file = le4 id ++ (le4 L ++ (payload ++ rest)) →
      id < 4294967296 → L < 4294967296 → payload.length = L →
      decompress E d.compression payload = .error e →
      (Decoder.next E d).1 = some (.error e) ∧
      (Decoder.next E d).2.position = d.position + 8 + (L : Int)) ∧
    (∀ (E : Externals) (d : Decoder) (id L : Nat) (payload rest buffer : List Nat),
      ¬(d.file_data_position > -1 ∧ d.position = d.file_data_position) →
      d.file = le4 id ++ (le4 L ++ (payload ++ rest)) →
      id < 4294967296 → L < 4294967296 → payload.length = L →
      decompress E d.compression payload = .ok buffer →
      lookupStream d.id_to_stream id = none →
      (Decoder.next E d).1 = some (.error (.general "unknown stream id")) ∧
      (Decoder.next E d).2.position = d.position + 8 + (L : Int)) ∧
    (∀ (E : Externals) (d : Decoder) (id L : Nat) (payload rest buffer : List Nat)
       (stream : Stream),
      ¬(d.file_data_position > -1 ∧ d.position = d.file_data_position) →
      d.file = le4 id ++ (le4 L ++ (payload ++ rest)) →
      id < 4294967296 → L < 4294967296 → payload.length = L →
      decompress E d.compression payload = .ok buffer →
      lookupStream d.id_to_stream id = some stream →
      E.buffer_has_identifier buffer stream.content.toString = false →
      (Decoder.next E d).1 = some (.error (.general "the stream id and the identifier do not match")) ∧
      (Decoder.next E d).2.position = d.position + 8 + (L : Int)) := by
  refine ⟨?_, ?_, ?_, ?_, ?_⟩
  · intro E d hterm h4 h8
    have h1 : read_exact 4 d.file = some (d.file.take 4, d.file.drop 4) := by
      simp only [read_exact, if_pos h4]
    have h2 : read_exact 4 (d.file.drop 4) = none := by
      refine read_exact_short 4 _ ?_
      simp only [List.length_drop]
      omega
    simp only [Decoder.next, if_neg hterm, h1, h2]
    constructor <;> trivial
  · intro E d id L payload hterm hfile hL hshort
    have h1 : read_exact 4 (le4 id ++ (le4 L ++ payload)) = some (le4 id, le4 L ++ payload) :=
      read_exact_append 4 _ _ (le4_length id)
    have h2 : read_exact 4 (le4 L ++ payload) = some (le4 L, payload) :=
      read_exact_append 4 _ _ (le4_length L)
    have h3 : read_exact L payload = none := read_exact_short L payload hshort
    simp only [Decoder.next, if_neg hterm, hfile, h1, h2, h3, u32_le4 L hL]
    constructor <;> trivial
  · intro E d id L payload rest e hterm hfile hid hL hlen hdec
    rw [next_framed E d id L payload rest hterm hfile hid hL hlen]
    simp only [hdec]
    constructor <;> trivial
  · intro E d id L payload rest buffer hterm hfile hid hL hlen hdec hls
    rw [next_framed E d id L payload rest hterm hfile hid hL hlen]
    simp only [hdec, hls]
    constructor <;> trivial
  · intro E d id L payload rest buffer stream hterm hfile hid hL hlen hdec hls hb
    rw [next_framed E d id L payload rest hterm hfile hid hL hlen]
    simp only [hdec, hls, hb]
    constructor <;> trivial

/-- C5: after decompression the stream id is looked up in the registry:
absence is the fatal unknown-stream-id error; presence with a failing
identifier check is the fatal mismatch error; presence with a passing
check yields the packet carrying the stream id and the decompressed
buffer.  The compression mode is arbitrary, constrained only by the
decompression having succeeded. -/
theorem C5_cross_validation :
    ∀ (E : Externals) (d : Decoder) (id L : Nat) (payload rest buffer : List Nat),
      ¬(d.file_data_position > -1 ∧ d.position = d.file_data_position) →
      d.file = le4 id ++ (le4 L ++ (payload ++ rest)) →
      id < 4294967296 → L < 4294967296 → payload.length = L →
      decompress E d.compression payload = .ok buffer →
      (lookupStream d.id_to_stream id = none →
        (Decoder.next E d).1 = some (.error (.general "unknown stream id"))) ∧
      (∀ stream : Stream, lookupStream d.id_to_stream id = some stream →
        E.buffer_has_identifier buffer stream.content.toString = false →
        (Decoder.next E d).1 =
          some (.error (.general "the stream id and the identifier do not match"))) ∧
      (∀ stream : Stream, lookupStream d.id_to_stream id = some stream →
        E.buffer_has_identifier buffer stream.content.toString = true →
        (Decoder.next E d).1 = some (.ok { buffer := buffer, stream_id := id })) := by
  intro E d id L payload rest buffer hterm hfile hid hL hlen hdec
  rw [next_framed E d id L payload rest hterm hfile hid hL hlen]
  refine ⟨?_, ?_, ?_⟩
  · intro hls
    simp only [hdec, hls]
  · intro stream hls hb
    simp only [hdec, hls, hb]
    rfl
  · intro stream hls hb
    simp only [hdec, hls, hb]
    rfl

/-- C6: decompression dispatch: the None mode is the identity on the raw
bytes; Lz4High shares the decoding of Lz4 and ZstdHigh that of Zstd; any
code outside the five members is the fatal unknown-compression error;
codec failures surface as the I/O error kind, and through the iteration
step a decompression error is the surfaced result of that call. -/
theorem C6_decompression_dispatch :
    (∀ (E : Externals) (raw : List Nat), decompress E CompressionNone raw = .ok raw) ∧
    (∀ (E : Externals) (raw : List Nat),
      decompress E CompressionLz4High raw = decompress E CompressionLz4 raw) ∧
    (∀ (E : Externals) (raw : List Nat),
      decompress E CompressionZstdHigh raw = decompress E CompressionZstd raw) ∧
    (∀ (E : Externals) (compression : Int) (raw : List Nat),
      compression ≠ CompressionNone → compression ≠ CompressionLz4 →
      compression ≠ CompressionLz4High → compression ≠ CompressionZstd →
      compression ≠ CompressionZstdHigh →
      decompress E compression raw = .error (.general "unknown compression algorithm")) ∧
    (∀ (E : Externals) (raw : List Nat), E.lz4_decode raw = .error () →
      decompress E CompressionLz4 raw = .error .ioErr) ∧
    (∀ (E : Externals) (raw : List Nat), E.zstd_decode raw = .error () →
      decompress E CompressionZstd raw = .error .ioErr) ∧
    (∀ (E : Externals) (d : Decoder) (id L : Nat) (payload rest : List Nat) (e : ParseError),
      ¬(d.file_data_position > -1 ∧ d.position = d.file_data_position) →
      d.file = le4 id ++ (le4 L ++ (payload ++ rest)) →
      id < 4294967296 → L < 4294967296 → payload.length = L →
      decompress E d.compression payload = .error e →
      (Decoder.next E d).1 = some (.error e)) := by
  refine ⟨?_, ?_, ?_, ?_, ?_, ?_, ?_⟩
  · intro E raw
    rfl
  · intro E raw
    rfl
  · intro E raw
    rfl
  · intro E compression raw h0 h1 h2 h3 h4
    simp only [decompress, CompressionNone, CompressionLz4, CompressionLz4High,
      CompressionZstd, CompressionZstdHigh] at h0 h1 h2 h3 h4 ⊢
    rw [if_neg h0, if_neg (by simp [h1, h2]), if_neg (by simp [h3, h4])]
  · intro E raw h
    simp only [decompress, CompressionLz4, CompressionNone]
    norm_num
    rw [h]
  · intro E raw h
    simp only [decompress, CompressionZstd, CompressionNone, CompressionLz4,
      CompressionLz4High]
    norm_num
    rw [h]
  · intro E d id L payload rest e hterm hfile hid hL hlen hdec
    rw [next_framed E d id L payload rest hterm hfile hid hL hlen]
    simp only [hdec]

/-- Unfolding of one iteration of runIter. -/
theorem runIter_succ (E : Externals) (n : Nat) (d : Decoder) :
    runIter E (n + 1) d =
      ((Decoder.next E d).1 :: (runIter E n (Decoder.next E d).2).1,
       (runIter E n (Decoder.next E d).2).2) := by
  simp only [runIter]

/-- Iterating over a source holding exactly the encoding of a valid record
sequence, with file_data_position marking its end, yields the packets of
the records in order followed by one clean completion, with the final
position equal to file_data_position. -/
theorem runIter_records (E : Externals) (rs : List PacketRec) :
    ∀ d : Decoder, d.file = encodeRecords rs →
      d.file_data_position = d.position + (sizeRecords rs : Int) →
      0 ≤ d.position →
      (∀ r ∈ rs, ValidRec E d.compression d.id_to_stream r) →
      runIter E (rs.length + 1) d =
        (rs.map (fun r => some (Except.ok
           { buffer := recBuf E d.compression r, stream_id := r.stream_id })) ++ [none],
         { d with file := [], position := d.file_data_position }) := by
  induction rs with
  | nil =>
    intro d hfile hfdp hpos hv
    obtain ⟨i, f, p, c, fd⟩ := d
    simp only [sizeRecords, Nat.cast_zero, add_zero, encodeRecords] at hfile hfdp
    subst hfile
    subst hfdp
    have hp : (0 : Int) ≤ fd := hpos
    have hterm : (Decoder.mk i [] fd c fd).file_data_position > -1 ∧
        (Decoder.mk i [] fd c fd).position = (Decoder.mk i [] fd c fd).file_data_position := by
      refine ⟨?_, rfl⟩
      show fd > -1
      omega
    have hnext : Decoder.next E (Decoder.mk i [] fd c fd) = (none, Decoder.mk i [] fd c fd) := by
      unfold Decoder.next
      rw [if_pos hterm]
    simp only [List.length_nil]
    rw [runIter_succ, hnext]
    simp only [runIter, List.map_nil, List.nil_append]
  | cons r rs ih =>
    intro d hfile hfdp hpos hvalid
    obtain ⟨hid, hlen, hdec, hlook⟩ := hvalid r (List.mem_cons_self r rs)
    have hsz : d.file_data_position =
        (d.position + 8 + (r.payload.length : Int)) + ((sizeRecords rs : Nat) : Int) := by
      simp only [sizeRecords] at hfdp
      push_cast at hfdp ⊢
      omega
    have hterm : ¬(d.file_data_position > -1 ∧ d.position = d.file_data_position) := by
      intro h
      omega
    have hfile2 : d.file = le4 r.stream_id ++
        (le4 r.payload.length ++ (r.payload ++ encodeRecords rs)) := by
      simp only [hfile, encodeRecords, encodeRecord, List.append_assoc]
    obtain ⟨stream, hls, hb⟩ :
        ∃ stream, lookupStream d.id_to_stream r.stream_id = some stream ∧
          E.buffer_has_identifier (recBuf E d.compression r) stream.content.toString = true := by
      cases hls : lookupStream d.id_to_stream r.stream_id with
      | none => rw [hls] at hlook; exact absurd hlook (by simp)
      | some stream =>
        rw [hls] at hlook
        exact ⟨stream, rfl, hlook⟩
    have hnext : Decoder.next E d =
        (some (.ok { buffer := recBuf E d.compression r, stream_id := r.stream_id }),
         Decoder.mk d.id_to_stream (encodeRecords rs)
           (d.position + 8 + (r.payload.length : Int)) d.compression d.file_data_position) := by
      rw [next_framed E d r.stream_id r.payload.length r.payload (encodeRecords rs)
        hterm hfile2 hid hlen rfl]
      simp only [hdec, hls, hb, if_pos]
    have h2 : (Decoder.mk d.id_to_stream (encodeRecords rs)
        (d.position + 8 + (r.payload.length : Int)) d.compression
        d.file_data_position).file_data_position =
        (Decoder.mk d.id_to_stream (encodeRecords rs)
          (d.position + 8 + (r.payload.length : Int)) d.compression
          d.file_data_position).position + ((sizeRecords rs : Nat) : Int) := hsz
    have h3 : (0 : Int) ≤ (Decoder.mk d.id_to_stream (encodeRecords rs)
        (d.position + 8 + (r.payload.length : Int)) d.compression
        d.file_data_position).position := by
      show (0 : Int) ≤ d.position + 8 + (r.payload.length : Int)
      have hc : (0 : Int) ≤ (r.payload.length : Int) := Int.natCast_nonneg _
      omega
    have ihd := ih (Decoder.mk d.id_to_stream (encodeRecords rs)
        (d.position + 8 + (r.payload.length : Int)) d.compression d.file_data_position)
      rfl h2 h3 (fun r' hr' => hvalid r' (List.mem_cons_of_mem r hr'))
    simp only [List.length_cons]
    rw [runIter_succ, hnext]
    dsimp only
    rw [ihd]
    simp only [List.map_cons, List.cons_append]

/-- C1: on a well-formed seekable source whose packet section holds N
valid framed records, iteration yields exactly the N packets then one
clean completion, with the final position equal to file_data_position;
and whenever file_data_position is known (not the -1 sentinel, positions
being nonnegative byte counts) and position equals it, the step returns
clean completion without touching the source. -/
theorem C1_seekable_iteration :
    (∀ (E : Externals) (d : Decoder) (rs : List PacketRec),
      d.file = encodeRecords rs →
      d.file_data_position = d.position + (sizeRecords rs : Int) →
      0 ≤ d.position →
      (∀ r ∈ rs, ValidRec E d.compression d.id_to_stream r) →
      (runIter E (rs.length + 1) d).1 =
        rs.map (fun r => some (Except.ok
          { buffer := recBuf E d.compression r, stream_id := r.stream_id })) ++ [none] ∧
      (runIter E (rs.length + 1) d).2.position = d.file_data_position) ∧
    (∀ (E : Externals) (d : Decoder),
      d.file_data_position ≠ -1 → d.position = d.file_data_position → 0 ≤ d.position →
      Decoder.next E d = (none, d)) := by
  constructor
  · intro E d rs h1 h2 h3 h4
    rw [runIter_records E rs d h1 h2 h3 h4]
    exact ⟨rfl, rfl⟩
  · intro E d hne heq hpos
    have hterm : d.file_data_position > -1 ∧ d.position = d.file_data_position :=
      ⟨by omega, heq⟩
    unfold Decoder.next
    rw [if_pos hterm]

/-- Witness: C1 at the concrete decoder d0 holding one record, and the
termination check at dTerm. -/
theorem C1_seekable_iteration_witness :
    ((runIter E0 ([r0].length + 1) d0).1 =
       [r0].map (fun r => some (Except.ok
         { buffer := recBuf E0 d0.compression r, stream_id := r.stream_id })) ++ [none] ∧
     (runIter E0 ([r0].length + 1) d0).2.position = d0.file_data_position) ∧
    Decoder.next E0 dTerm = (none, dTerm) := by
  constructor
  · refine C1_seekable_iteration.1 E0 d0 [r0] rfl (by decide) (by decide) ?_
    intro r hr
    rw [List.mem_singleton] at hr
    subst hr
    exact ⟨by decide, by decide, rfl, rfl⟩
  · exact C1_seekable_iteration.2 E0 dTerm (by decide) rfl (by decide)

/-- Witness: C3 at the concrete decoders dShort1 (2 bytes left, clean
completion) and dShort2 (5 bytes left, surfaced I/O error). -/
theorem C3_id_read_none_length_read_error_witness :
    (Decoder.next E0 dShort1).1 = none ∧
    (Decoder.next E0 dShort2).1 = some (.error .ioErr) := by
  constructor
  · exact C3_id_read_none_length_read_error.1 E0 dShort1 (by decide)
  · exact C3_id_read_none_length_read_error.2 E0 dShort2 (by decide) (by decide) (by decide)

/-- Witness: C10 at concrete decoders: a failed length read at dShort2
leaves position 0; an unknown stream id at dNoReg advances position to 9. -/
theorem C10_position_on_error_witness :
    ((Decoder.next E0 dShort2).1 = some (.error .ioErr) ∧
     (Decoder.next E0 dShort2).2.position = dShort2.position) ∧
    ((Decoder.next E0 dTrunc).1 = some (.error .ioErr) ∧
     (Decoder.next E0 dTrunc).2.position = dTrunc.position + 8 + ((5 : Nat) : Int)) ∧
    ((Decoder.next E0 dNoReg).1 = some (.error (.general "unknown stream id")) ∧
     (Decoder.next E0 dNoReg).2.position = dNoReg.position + 8 + ((1 : Nat) : Int)) := by
  refine ⟨?_, ?_, ?_⟩
  · exact C10_position_on_error.1 E0 dShort2 (by decide) (by decide) (by decide)
  · exact C10_position_on_error.2.1 E0 dTrunc 7 5 [1, 2] (by decide) rfl (by decide) (by decide)
  · exact C10_position_on_error.2.2.2.1 E0 dNoReg 7 1 [0] [] [0]
      (by decide) rfl (by decide) (by decide) rfl rfl rfl

/-- Witness: C5 at concrete decoders: unknown id at dNoReg, identifier
mismatch at dMismatch, success at dC5. -/
theorem C5_cross_validation_witness :
    (Decoder.next E0 dNoReg).1 = some (.error (.general "unknown stream id")) ∧
    (Decoder.next E0 dMismatch).1 =
      some (.error (.general "the stream id and the identifier do not match")) ∧
    (Decoder.next E0 dC5).1 =
      some (.ok { buffer := [69, 86, 84, 83], stream_id := 0 }) := by
  refine ⟨?_, ?_, ?_⟩
  · exact (C5_cross_validation E0 dNoReg 7 1 [0] [] [0]
      (by decide) rfl (by decide) (by decide) rfl rfl).1 rfl
  · exact (C5_cross_validation E0 dMismatch 0 4 [69, 86, 84, 83] [] [69, 86, 84, 83]
      (by decide) rfl (by decide) (by decide) rfl rfl).2.1
      { content := .imus, width := 0, height := 0 } rfl rfl
  · exact (C5_cross_validation E0 dC5 0 4 [69, 86, 84, 83] [] [69, 86, 84, 83]
      (by decide) rfl (by decide) (by decide) rfl rfl).2.2 s0 rfl rfl

/-- Witness: C6 at concrete inputs: identity of the None mode, the
unknown-compression error at code 7, the surfaced codec failure, and a
surfaced decompression error through the iteration step at dLz4. -/
theorem C6_decompression_dispatch_witness :
    decompress E0 CompressionNone [5] = .ok [5] ∧
    decompress E0 7 [5] = .error (.general "unknown compression algorithm") ∧
    decompress E0 CompressionLz4 [0] = .error .ioErr ∧
    (Decoder.next E0 dLz4).1 = some (.error .ioErr) := by
  refine ⟨?_, ?_, ?_, ?_⟩
  · exact C6_decompression_dispatch.1 E0 [5]
  · exact C6_decompression_dispatch.2.2.2.1 E0 7 [5]
      (by decide) (by decide) (by decide) (by decide) (by decide)
  · exact C6_decompression_dispatch.2.2.2.2.1 E0 [0] rfl
  · exact C6_decompression_dispatch.2.2.2.2.2.2 E0 dLz4 7 1 [0] [] .ioErr
      (by decide) rfl (by decide) (by decide) rfl rfl

/-- C4, counterexample: on the empty input (a short read of the magic
preamble), construction fails with the Io error, not with the General
parse error named by the claim. -/
theorem C4_magic_counterexample :
    new_from_file E0 [] = .error .ioErr ∧
    (ParseError.ioErr ≠
      ParseError.general "the file does not contain AEDAT4 data (wrong magic number)") := by
  constructor
  · rfl
  · decide

/-- C4, amended: a short read of the 14-byte magic preamble fails
construction with the Io error; a complete read of 14 bytes that are valid
UTF-8 but differ from the magic fails with the General wrong-magic error,
and one that is not valid UTF-8 fails with the Utf8 error — in both cases
regardless of what follows, so before any header bytes are read and with
no retry; the exact magic proceeds to header parsing. -/
theorem C4_magic_check :
    (∀ (E : Externals) (input : List Nat), input.length < 14 →
      new_from_file E input = .error .ioErr) ∧
    (∀ (E : Externals) (pre suf : List Nat), pre.length = 14 →
      utf8_valid pre = true → pre ≠ magicBytes →
      new_from_file E (pre ++ suf) =
        .error (.general "the file does not contain AEDAT4 data (wrong magic number)")) ∧
    (∀ (E : Externals) (pre suf : List Nat), pre.length = 14 →
      utf8_valid pre = false →
      new_from_file E (pre ++ suf) = .error .utf8Err) ∧
    (∀ (E : Externals) (suf : List Nat),
      new_from_file E (magicBytes ++ suf) =
        read_io_header E
          { id_to_stream := [], file := suf, position := 14,
            compression := CompressionNone, file_data_position := 0 }) := by
  refine ⟨?_, ?_, ?_, ?_⟩
  · intro E input h
    have hshort : read_exact magicBytes.length input = none := by
      refine read_exact_short _ _ ?_
      rw [show magicBytes.length = 14 from rfl]
      exact h
    simp only [new_from_file, hshort]
  · intro E pre suf hlen hvalid hne
    have hread : read_exact magicBytes.length (pre ++ suf) = some (pre, suf) :=
      read_exact_append _ _ _ (by rw [hlen]; rfl)
    simp only [new_from_file, hread]
    rw [if_neg (by simp [hvalid]), if_pos hne]
  · intro E pre suf hlen hvalid
    have hread : read_exact magicBytes.length (pre ++ suf) = some (pre, suf) :=
      read_exact_append _ _ _ (by rw [hlen]; rfl)
    simp only [new_from_file, hread]
    rw [if_pos hvalid]
  · intro E suf
    have hread : read_exact magicBytes.length (magicBytes ++ suf) = some (magicBytes, suf) :=
      read_exact_append _ _ _ rfl
    simp only [new_from_file, hread]
    rw [if_neg (by decide), if_neg (by simp)]
    rfl

/-- Witness: C4 amended at concrete inputs: a 3-byte source, a 14-zero
prefix, a prefix opening with an invalid UTF-8 byte, and the exact magic. -/
theorem C4_magic_check_witness :
    new_from_file E0 [1, 2, 3] = .error .ioErr ∧
    new_from_file E0 ([0, 0, 0, 0, 0, 0, 0, 0, 0, 0, 0, 0, 0, 0] ++ []) =
      .error (.general "the file does not contain AEDAT4 data (wrong magic number)") ∧
    new_from_file E0 ([255, 0, 0, 0, 0, 0, 0, 0, 0, 0, 0, 0, 0, 0] ++ []) =
      .error .utf8Err ∧
    new_from_file E0 (magicBytes ++ [0, 0, 0, 0]) =
      read_io_header E0
        { id_to_stream := [], file := [0, 0, 0, 0], position := 14,
          compression := CompressionNone, file_data_position := 0 } := by
  refine ⟨?_, ?_, ?_, ?_⟩
  · exact C4_magic_check.1 E0 [1, 2, 3] (by decide)
  · exact C4_magic_check.2.1 E0 [0, 0, 0, 0, 0, 0, 0, 0, 0, 0, 0, 0, 0, 0] []
      (by decide) (by decide) (by decide)
  · exact C4_magic_check.2.2.1 E0 [255, 0, 0, 0, 0, 0, 0, 0, 0, 0, 0, 0, 0, 0] []
      (by decide) (by decide)
  · exact C4_magic_check.2.2.2 E0 [0, 0, 0, 0]

/-- A lookup returning no stream means no registry pair carries that key. -/
theorem lookupStream_isSome_false (registry : List (Nat × Stream)) (id : Nat)
    (h : (lookupStream registry id).isSome = false) :
    ∀ p ∈ registry, p.1 ≠ id := by
  have hnone : registry.find? (fun q => q.1 == id) = none := by
    cases hf : registry.find? (fun q => q.1 == id) with
    | none => rfl
    | some q =>
      unfold lookupStream at h
      rw [hf] at h
      simp at h
  intro p hp heq
  have hnp := List.find?_eq_none.mp hnone p hp
  simp [heq] at hnp

/-- Processing one stream node preserves distinctness of the registry keys. -/
theorem processStreamNode_nodup (registry : List (Nat × Stream)) (node : XmlNode)
    (reg' : List (Nat × Stream)) (h : processStreamNode registry node = .ok reg')
    (hnd : (registry.map Prod.fst).Nodup) : (reg'.map Prod.fst).Nodup := by
  unfold processStreamNode at h
  by_cases hg : (node.isElement && node.hasTagNameB "node") = true
  · rw [if_pos hg] at h
    cases h1 : node.attrValue "name" with
    | none => simp only [h1] at h; exact absurd h (by simp)
    | some name_text =>
      simp only [h1] at h
      cases h2 : rust_parse_u32 name_text with
      | error e => simp only [h2] at h; exact absurd h (by simp)
      | ok stream_id =>
        simp only [h2] at h
        cases h3 : findAttrNode node "typeIdentifier" with
        | none => simp only [h3] at h; exact absurd h (by simp)
        | some id_attr =>
          simp only [h3] at h
          cases h4 : id_attr.textContent with
          | none => simp only [h4] at h; exact absurd h (by simp)
          | some identifier =>
            simp only [h4] at h
            cases h5 : readDimensions node identifier with
            | error e => simp only [h5] at h; exact absurd h (by simp)
            | ok wh =>
              simp only [h5] at h
              cases h6 : StreamContent.fromId identifier with
              | error e => simp only [h6] at h; exact absurd h (by simp)
              | ok content =>
                simp only [h6] at h
                by_cases h7 : (lookupStream registry stream_id).isSome = true
                · rw [if_pos h7] at h; exact absurd h (by simp)
                · rw [if_neg h7] at h
                  have h8 : (lookupStream registry stream_id).isSome = false := by
                    simpa using h7
                  injection h with h
                  subst h
                  rw [List.map_append]
                  refine List.Nodup.append hnd (by simp) ?_
                  intro a ha hb
                  simp only [List.map_cons, List.map_nil, List.mem_singleton] at hb
                  subst hb
                  obtain ⟨p, hp, hpa⟩ := List.mem_map.mp ha
                  exact lookupStream_isSome_false registry a h8 p hp hpa
  · rw [if_neg hg] at h
    injection h with h
    subst h
    exact hnd

/-- The stream-node loop preserves distinctness of the registry keys. -/
theorem processStreamNodes_nodup (nodes : List XmlNode) :
    ∀ registry reg', processStreamNodes nodes registry = .ok reg' →
      (registry.map Prod.fst).Nodup → (reg'.map Prod.fst).Nodup := by
  induction nodes with
  | nil =>
    intro registry reg' h hnd
    simp only [processStreamNodes] at h
    injection h with h
    subst h
    exact hnd
  | cons node rest ih =>
    intro registry reg' h hnd
    simp only [processStreamNodes] at h
    cases h1 : processStreamNode registry node with
    | error e => rw [h1] at h; simp at h
    | ok reg2 =>
      rw [h1] at h
      exact ih reg2 reg' h (processStreamNode_nodup registry node reg2 h1 hnd)

/-- Inversion of a successful header parse: the two framed reads
succeeded, the stream-node loop produced the (nonempty) registry from the
initial one, and the compression and file_data_position fields hold the
header accessor values of the read buffer. -/
theorem read_io_header_ok_inv (E : Externals) (d0 d : Decoder)
    (h : read_io_header E d0 = .ok d) :
    ∃ (lb rest buf rest2 : List Nat) (nodes : List XmlNode)
      (registry : List (Nat × Stream)),
      read_exact 4 d0.file = some (lb, rest) ∧
      read_exact (u32_from_le_bytes lb) rest = some (buf, rest2) ∧
      processStreamNodes nodes d0.id_to_stream = .ok registry ∧
      registry.isEmpty = false ∧
      d.id_to_stream = registry ∧
      d.compression = (E.root_as_ioheader buf).compression ∧
      d.file_data_position = (E.root_as_ioheader buf).file_data_position := by
  unfold read_io_header at h
  cases h1 : read_exact 4 d0.file with
  | none => rw [h1] at h; simp at h
  | some p1 =>
    obtain ⟨lb, rest⟩ := p1
    simp only [h1] at h
    cases h2 : read_exact (u32_from_le_bytes lb) rest with
    | none => rw [h2] at h; simp at h
    | some p2 =>
      obtain ⟨buf, rest2⟩ := p2
      simp only [h2] at h
      cases h3 : (E.root_as_ioheader buf).description with
      | none => rw [h3] at h; simp at h
      | some desc =>
        simp only [h3] at h
        cases h4 : E.xml_parse desc with
        | error e => rw [h4] at h; simp at h
        | ok doc =>
          simp only [h4] at h
          cases h5 : doc.rootChildren.head? with
          | none => rw [h5] at h; simp at h
          | some dv =>
            simp only [h5] at h
            by_cases h6 : dv.hasTagNameB "dv" = false
            · rw [if_pos h6] at h; simp at h
            · rw [if_neg h6] at h
              cases h7 : findOutputNode dv with
              | none => rw [h7] at h; simp at h
              | some out =>
                simp only [h7] at h
                cases h8 : processStreamNodes out.childrenList d0.id_to_stream with
                | error e => rw [h8] at h; simp at h
                | ok registry =>
                  simp only [h8] at h
                  by_cases h9 : registry.isEmpty = true
                  · rw [if_pos h9] at h; simp at h
                  · rw [if_neg h9] at h
                    injection h with h
                    subst h
                    exact ⟨lb, rest, buf, rest2, out.childrenList, registry,
                      rfl, h2, h8, by simpa using h9, rfl, rfl, rfl⟩

/-- C2, counterexample: over externals whose header message carries
file_data_position 100, the Unix-stream construction succeeds and the
resulting decoder holds file_data_position 100, not the -1 sentinel: the
header field is assigned verbatim (base.rs line 177), not ignored. -/
theorem C2_streaming_sentinel_counterexample :
    new_from_unix_stream E0 [0, 0, 0, 0] = .ok dUnix ∧
    dUnix.file_data_position = 100 ∧ (100 : Int) ≠ -1 := by
  refine ⟨?_, rfl, by decide⟩
  rfl

/-- C2, amended: the streaming constructors initialize file_data_position
to the -1 sentinel before header parsing, but read_io_header then assigns
the header message's file_data_position field unconditionally, so after a
successful construction the decoder holds the header's value (whatever it
is), not necessarily the sentinel. -/
theorem C2_streaming_sentinel :
    (∀ (E : Externals) (input : List Nat),
      new_from_unix_stream E input = read_io_header E
        { id_to_stream := [], file := input, position := 0,
          compression := CompressionNone, file_data_position := -1 } ∧
      new_from_tcp_stream E input = read_io_header E
        { id_to_stream := [], file := input, position := 0,
          compression := CompressionNone, file_data_position := -1 }) ∧
    (∀ (E : Externals) (input lb rest buf rest2 : List Nat) (d : Decoder),
      read_exact 4 input = some (lb, rest) →
      read_exact (u32_from_le_bytes lb) rest = some (buf, rest2) →
      new_from_unix_stream E input = .ok d →
      d.file_data_position = (E.root_as_ioheader buf).file_data_position) ∧
    (∀ (E : Externals) (input lb rest buf rest2 : List Nat) (d : Decoder),
      read_exact 4 input = some (lb, rest) →
      read_exact (u32_from_le_bytes lb) rest = some (buf, rest2) →
      new_from_tcp_stream E input = .ok d →
      d.file_data_position = (E.root_as_ioheader buf).file_data_position) := by
  refine ⟨fun E input => ⟨rfl, rfl⟩, ?_, ?_⟩
  · intro E input lb rest buf rest2 d h1 h2 h
    obtain ⟨lb', rest', buf', rest2', nodes, registry,
      h1', h2', hps, hemp, hreg, hcomp, hfdp⟩ := read_io_header_ok_inv E _ d h
    have e1 : (some (lb', rest') : Option (List Nat × List Nat)) = some (lb, rest) :=
      h1'.symm.trans h1
    injection e1 with e1
    injection e1 with e1a e1b
    subst e1a
    subst e1b
    have e2 : (some (buf', rest2') : Option (List Nat × List Nat)) = some (buf, rest2) :=
      h2'.symm.trans h2
    injection e2 with e2
    injection e2 with e2a e2b
    subst e2a
    exact hfdp
  · intro E input lb rest buf rest2 d h1 h2 h
    obtain ⟨lb', rest', buf', rest2', nodes, registry,
      h1', h2', hps, hemp, hreg, hcomp, hfdp⟩ := read_io_header_ok_inv E _ d h
    have e1 : (some (lb', rest') : Option (List Nat × List Nat)) = some (lb, rest) :=
      h1'.symm.trans h1
    injection e1 with e1
    injection e1 with e1a e1b
    subst e1a
    subst e1b
    have e2 : (some (buf', rest2') : Option (List Nat × List Nat)) = some (buf, rest2) :=
      h2'.symm.trans h2
    injection e2 with e2
    injection e2 with e2a e2b
    subst e2a
    exact hfdp

/-- Witness: C2 amended at the concrete Unix-stream construction over E0,
whose header buffer is empty and whose header accessor reports 100. -/
theorem C2_streaming_sentinel_witness :
    dUnix.file_data_position = (E0.root_as_ioheader []).file_data_position := by
  exact C2_streaming_sentinel.2.1 E0 [0, 0, 0, 0] [0, 0, 0, 0] [] [] [] dUnix rfl rfl rfl

/-- C7: registry invariants of header parsing: a stream node whose parsed
id is already registered fails with the duplicated-stream-id error; a
parse whose stream-node loop leaves the registry empty fails with the
no-stream error; and every successfully constructed decoder (by any of the
three constructors) has a nonempty registry with pairwise distinct ids. -/
theorem C7_registry_invariants :
    (∀ (registry : List (Nat × Stream)) (node : XmlNode) (name_text : String)
       (stream_id : Nat) (id_attr : XmlNode) (identifier : String) (wh : Nat × Nat)
       (content : StreamContent) (st : Stream),
      (node.isElement && node.hasTagNameB "node") = true →
      node.attrValue "name" = some name_text →
      rust_parse_u32 name_text = .ok stream_id →
      findAttrNode node "typeIdentifier" = some id_attr →
      id_attr.textContent = some identifier →
      readDimensions node identifier = .ok wh →
      StreamContent.fromId identifier = .ok content →
      lookupStream registry stream_id = some st →
      processStreamNode registry node = .error (.general "duplicated stream id")) ∧
    (∀ (E : Externals) (d0 : Decoder) (lb rest buf rest2 : List Nat) (desc : String)
       (doc : XmlDocument) (dv out : XmlNode),
      read_exact 4 d0.file = some (lb, rest) →
      read_exact (u32_from_le_bytes lb) rest = some (buf, rest2) →
      (E.root_as_ioheader buf).description = some desc →
      E.xml_parse desc = .ok doc →
      doc.rootChildren.head? = some dv →
      dv.hasTagNameB "dv" = true →
      findOutputNode dv = some out →
      processStreamNodes out.childrenList d0.id_to_stream = .ok [] →
      read_io_header E d0 = .error (.general "no stream found in the description")) ∧
    (∀ (E : Externals) (input : List Nat) (d : Decoder),
      (new_from_file E input = .ok d ∨ new_from_unix_stream E input = .ok d ∨
        new_from_tcp_stream E input = .ok d) →
      d.id_to_stream ≠ [] ∧ (d.id_to_stream.map Prod.fst).Nodup) := by
  refine ⟨?_, ?_, ?_⟩
  · intro registry node name_text stream_id id_attr identifier wh content st
      hg h1 h2 h3 h4 h5 h6 h7
    unfold processStreamNode
    rw [if_pos hg]
    simp only [h1, h2, h3, h4, h5, h6]
    rw [if_pos (by simp [h7])]
  · intro E d0 lb rest buf rest2 desc doc dv out h1 h2 h3 h4 h5 h6 h7 h8
    unfold read_io_header
    simp only [h1, h2, h3, h4, h5, h6, h7, h8]
    rfl
  · have hmain : ∀ (E : Externals) (d0 d : Decoder), d0.id_to_stream = [] →
        read_io_header E d0 = .ok d →
        d.id_to_stream ≠ [] ∧ (d.id_to_stream.map Prod.fst).Nodup := by
      intro E d0 d hinit h
      obtain ⟨lb, rest, buf, rest2, nodes, registry,
        h1, h2, hps, hemp, hreg, hcomp, hfdp⟩ := read_io_header_ok_inv E d0 d h
      rw [hinit] at hps
      constructor
      · rw [hreg]
        intro hcon
        subst hcon
        simp at hemp
      · rw [hreg]
        exact processStreamNodes_nodup nodes [] registry hps (by simp)
    intro E input d hcase
    rcases hcase with h | h | h
    · unfold new_from_file at h
      dsimp only at h
      cases hr : read_exact magicBytes.length input with
      | none => rw [hr] at h; exact absurd h (by simp)
      | some p =>
        obtain ⟨mb, rest⟩ := p
        simp only [hr] at h
        by_cases hv : utf8_valid mb = false
        · rw [if_pos hv] at h; exact absurd h (by simp)
        · rw [if_neg hv] at h
          by_cases hm : mb ≠ magicBytes
          · rw [if_pos hm] at h; exact absurd h (by simp)
          · rw [if_neg hm] at h
            exact hmain E _ d rfl h
    · exact hmain E _ d rfl h
    · exact hmain E _ d rfl h

/-- Witness: C7 at concrete inputs: the duplicate node streamNodeT against
a registry already owning id 0, the zero-stream description of EEmpty, and
the successful construction dUnix. -/
theorem C7_registry_invariants_witness :
    processStreamNode [(0, s0)] streamNodeT = .error (.general "duplicated stream id") ∧
    new_from_unix_stream EEmpty [0, 0, 0, 0] =
      .error (.general "no stream found in the description") ∧
    (dUnix.id_to_stream ≠ [] ∧ (dUnix.id_to_stream.map Prod.fst).Nodup) := by
  refine ⟨?_, ?_, ?_⟩
  · exact C7_registry_invariants.1 [(0, s0)] streamNodeT "0" 0
      (XmlNode.element "attr" [("key", "typeIdentifier")] [XmlNode.text "IMUS"])
      "IMUS" (0, 0) .imus s0 (by decide) rfl rfl rfl rfl rfl rfl rfl
  · exact C7_registry_invariants.2.1 EEmpty
      { id_to_stream := [], file := [0, 0, 0, 0], position := 0,
        compression := CompressionNone, file_data_position := -1 }
      [0, 0, 0, 0] [] [] [] "doc" docEmpty
      (XmlNode.element "dv" [] [XmlNode.element "node" [("name", "outInfo")] []])
      (XmlNode.element "node" [("name", "outInfo")] [])
      rfl rfl rfl rfl rfl (by decide) rfl rfl
  · exact C7_registry_invariants.2.2 E0 [0, 0, 0, 0] dUnix (Or.inr (Or.inl rfl))

/-- C8: dimension extraction per stream node: identifiers mapping to Imus
or Triggers fix width and height at 0 whatever the children are (no info
lookup); for Events and Frame identifiers a missing info node is a fatal
error, and each of sizeX and sizeY is a fatal error when missing, when
empty (no text child) and when unparseable; parsed values are unsigned
16-bit (below 65536). -/
theorem C8_info_dimensions :
    (∀ node : XmlNode, readDimensions node "IMUS" = .ok (0, 0)) ∧
    (∀ node : XmlNode, readDimensions node "TRIG" = .ok (0, 0)) ∧
    (∀ (node : XmlNode) (identifier : String),
      (identifier = "EVTS" ∨ identifier = "FRME") →
      findInfoNode node = none →
      readDimensions node identifier = .error (.general "missing info node")) ∧
    (∀ (node info : XmlNode) (identifier : String),
      (identifier = "EVTS" ∨ identifier = "FRME") →
      findInfoNode node = some info →
      findAttrNode info "sizeX" = none →
      readDimensions node identifier = .error (.general "missing sizeX attribute")) ∧
    (∀ (node info nx : XmlNode) (identifier : String),
      (identifier = "EVTS" ∨ identifier = "FRME") →
      findInfoNode node = some info →
      findAttrNode info "sizeX" = some nx →
      nx.textContent = none →
      readDimensions node identifier = .error (.general "empty sizeX attribute")) ∧
    (∀ (node info nx : XmlNode) (identifier sx : String) (e : ParseError),
      (identifier = "EVTS" ∨ identifier = "FRME") →
      findInfoNode node = some info →
      findAttrNode info "sizeX" = some nx →
      nx.textContent = some sx →
      rust_parse_u16 sx = .error e →
      readDimensions node identifier = .error e) ∧
    (∀ (node info nx : XmlNode) (identifier sx : String) (width : Nat),
      (identifier = "EVTS" ∨ identifier = "FRME") →
      findInfoNode node = some info →
      findAttrNode info "sizeX" = some nx →
      nx.textContent = some sx →
      rust_parse_u16 sx = .ok width →
      findAttrNode info "sizeY" = none →
      readDimensions node identifier = .error (.general "missing sizeX attribute")) ∧
    (∀ (node info nx ny : XmlNode) (identifier sx : String) (width : Nat),
      (identifier = "EVTS" ∨ identifier = "FRME") →
      findInfoNode node = some info →
      findAttrNode info "sizeX" = some nx →
      nx.textContent = some sx →
      rust_parse_u16 sx = .ok width →
      findAttrNode info "sizeY" = some ny →
      ny.textContent = none →
      readDimensions node identifier = .error (.general "empty sizeX attribute")) ∧
    (∀ (node info nx ny : XmlNode) (identifier sx sy : String) (width : Nat)
       (e : ParseError),
      (identifier = "EVTS" ∨ identifier = "FRME") →
      findInfoNode node = some info →
      findAttrNode info "sizeX" = some nx →
      nx.textContent = some sx →
      rust_parse_u16 sx = .ok width →
      findAttrNode info "sizeY" = some ny →
      ny.textContent = some sy →
      rust_parse_u16 sy = .error e →
      readDimensions node identifier = .error e) ∧
    (∀ (node info nx ny : XmlNode) (identifier sx sy : String) (width height : Nat),
      (identifier = "EVTS" ∨ identifier = "FRME") →
      findInfoNode node = some info →
      findAttrNode info "sizeX" = some nx →
      nx.textContent = some sx →
      rust_parse_u16 sx = .ok width →
      findAttrNode info "sizeY" = some ny →
      ny.textContent = some sy →
      rust_parse_u16 sy = .ok height →
      readDimensions node identifier = .ok (width, height)) ∧
    (∀ (s : String) (n : Nat), rust_parse_u16 s = .ok n → n < 65536) := by
  refine ⟨?_, ?_, ?_, ?_, ?_, ?_, ?_, ?_, ?_, ?_, ?_⟩
  · intro node
    unfold readDimensions
    rw [if_neg (by decide)]
  · intro node
    unfold readDimensions
    rw [if_neg (by decide)]
  · intro node identifier hident h1
    unfold readDimensions
    rw [if_pos hident]
    simp only [h1]
  · intro node info identifier hident h1 h2
    unfold readDimensions
    rw [if_pos hident]
    simp only [h1, h2]
  · intro node info nx identifier hident h1 h2 h3
    unfold readDimensions
    rw [if_pos hident]
    simp only [h1, h2, h3]
  · intro node info nx identifier sx e hident h1 h2 h3 h4
    unfold readDimensions
    rw [if_pos hident]
    simp only [h1, h2, h3, h4]
  · intro node info nx identifier sx width hident h1 h2 h3 h4 h5
    unfold readDimensions
    rw [if_pos hident]
    simp only [h1, h2, h3, h4, h5]
  · intro node info nx ny identifier sx width hident h1 h2 h3 h4 h5 h6
    unfold readDimensions
    rw [if_pos hident]
    simp only [h1, h2, h3, h4, h5, h6]
  · intro node info nx ny identifier sx sy width e hident h1 h2 h3 h4 h5 h6 h7
    unfold readDimensions
    rw [if_pos hident]
    simp only [h1, h2, h3, h4, h5, h6, h7]
  · intro node info nx ny identifier sx sy width height hident h1 h2 h3 h4 h5 h6 h7
    unfold readDimensions
    rw [if_pos hident]
    simp only [h1, h2, h3, h4, h5, h6, h7]
  · intro s n h
    unfold rust_parse_u16 rust_parse at h
    dsimp only at h
    cases hp : parseNatDigits
        (match s.data with
          | '+' :: rest => rest
          | cs => cs) with
    | none => rw [hp] at h; exact absurd h (by simp)
    | some m =>
      simp only [hp] at h
      by_cases hb : m < 65536
      · rw [if_pos hb] at h
        injection h with h
        omega
      · rw [if_neg hb] at h
        exact absurd h (by simp)

/-- Witness: C8 at concrete nodes: the Imus-typed streamNodeT without an
info child yields 0 by 0; the Events-typed evtsNoInfo fails for want of an
info node; evtsEmptyY fails on its empty sizeY value and evtsBadY on its
unparseable one; the Events-typed evtsFull parses 640 by 480. -/
theorem C8_info_dimensions_witness :
    readDimensions streamNodeT "IMUS" = .ok (0, 0) ∧
    readDimensions evtsNoInfo "EVTS" = .error (.general "missing info node") ∧
    readDimensions evtsEmptyY "EVTS" = .error (.general "empty sizeX attribute") ∧
    readDimensions evtsBadY "EVTS" = .error .parseIntErr ∧
    readDimensions evtsFull "EVTS" = .ok (640, 480) ∧
    640 < 65536 := by
  refine ⟨?_, ?_, ?_, ?_, ?_, ?_⟩
  · exact C8_info_dimensions.1 streamNodeT
  · exact C8_info_dimensions.2.2.1 evtsNoInfo "EVTS" (Or.inl rfl) rfl
  · exact C8_info_dimensions.2.2.2.2.2.2.2.1 evtsEmptyY infoEmptyY
      (XmlNode.element "attr" [("key", "sizeX")] [XmlNode.text "640"])
      (XmlNode.element "attr" [("key", "sizeY")] [])
      "EVTS" "640" 640 (Or.inl rfl) rfl rfl rfl rfl rfl rfl
  · exact C8_info_dimensions.2.2.2.2.2.2.2.2.1 evtsBadY infoBadY
      (XmlNode.element "attr" [("key", "sizeX")] [XmlNode.text "640"])
      (XmlNode.element "attr" [("key", "sizeY")] [XmlNode.text "wide"])
      "EVTS" "640" "wide" 640 .parseIntErr (Or.inl rfl) rfl rfl rfl rfl rfl rfl rfl
  · exact C8_info_dimensions.2.2.2.2.2.2.2.2.2.1 evtsFull infoNodeT
      (XmlNode.element "attr" [("key", "sizeX")] [XmlNode.text "640"])
      (XmlNode.element "attr" [("key", "sizeY")] [XmlNode.text "480"])
      "EVTS" "640" "480" 640 480 (Or.inl rfl) rfl rfl rfl rfl rfl rfl rfl
  · exact C8_info_dimensions.2.2.2.2.2.2.2.2.2.2 "640" 640 rfl

/-- C9, counterexample: the unsupported-type error carries the fixed text
"unsupported stream type", not the offending 4-character code: at the
identifier ABCD the payload of the error differs from the code. -/
theorem C9_type_identifier_counterexample :
    StreamContent.fromId "ABCD" =
      .error (.unsupportedStreamType "unsupported stream type") ∧
    "unsupported stream type" ≠ "ABCD" := by
  exact ⟨rfl, by decide⟩

/-- C9, amended: the type identifier maps exactly by EVTS to Events, FRME
to Frame, IMUS to Imus and TRIG to Triggers; any other code fails with the
UnsupportedStreamType error carrying the fixed text "unsupported stream
type" (not the offending code), which aborts the stream-node processing;
a missing or empty identifier is a fatal General error. -/
theorem C9_type_identifier_mapping :
    StreamContent.fromId "EVTS" = .ok .events ∧
    StreamContent.fromId "FRME" = .ok .frame ∧
    StreamContent.fromId "IMUS" = .ok .imus ∧
    StreamContent.fromId "TRIG" = .ok .triggers ∧
    (∀ identifier : String, identifier ≠ "EVTS" → identifier ≠ "FRME" →
      identifier ≠ "IMUS" → identifier ≠ "TRIG" →
      StreamContent.fromId identifier =
        .error (.unsupportedStreamType "unsupported stream type")) ∧
    (∀ (registry : List (Nat × Stream)) (node : XmlNode) (name_text : String)
       (stream_id : Nat) (id_attr : XmlNode) (identifier : String) (wh : Nat × Nat),
      (node.isElement && node.hasTagNameB "node") = true →
      node.attrValue "name" = some name_text →
      rust_parse_u32 name_text = .ok stream_id →
      findAttrNode node "typeIdentifier" = some id_attr →
      id_attr.textContent = some identifier →
      readDimensions node identifier = .ok wh →
      StreamContent.fromId identifier =
        .error (.unsupportedStreamType "unsupported stream type") →
      processStreamNode registry node =
        .error (.unsupportedStreamType "unsupported stream type")) ∧
    (∀ (registry : List (Nat × Stream)) (node : XmlNode) (name_text : String)
       (stream_id : Nat),
      (node.isElement && node.hasTagNameB "node") = true →
      node.attrValue "name" = some name_text →
      rust_parse_u32 name_text = .ok stream_id →
      findAttrNode node "typeIdentifier" = none →
      processStreamNode registry node =
        .error (.general "missing stream node type identifier")) ∧
    (∀ (registry : List (Nat × Stream)) (node : XmlNode) (name_text : String)
       (stream_id : Nat) (id_attr : XmlNode),
      (node.isElement && node.hasTagNameB "node") = true →
      node.attrValue "name" = some name_text →
      rust_parse_u32 name_text = .ok stream_id →
      findAttrNode node "typeIdentifier" = some id_attr →
      id_attr.textContent = none →
      processStreamNode registry node =
        .error (.general "empty stream node type identifier")) := by
  refine ⟨rfl, rfl, rfl, rfl, ?_, ?_, ?_, ?_⟩
  · intro identifier h1 h2 h3 h4
    unfold StreamContent.fromId
    rw [if_neg h1, if_neg h2, if_neg h3, if_neg h4]
  · intro registry node name_text stream_id id_attr identifier wh hg h1 h2 h3 h4 h5 h6
    unfold processStreamNode
    rw [if_pos hg]
    simp only [h1, h2, h3, h4, h5, h6]
  · intro registry node name_text stream_id hg h1 h2 h3
    unfold processStreamNode
    rw [if_pos hg]
    simp only [h1, h2, h3]
  · intro registry node name_text stream_id id_attr hg h1 h2 h3 h4
    unfold processStreamNode
    rw [if_pos hg]
    simp only [h1, h2, h3, h4]

/-- Witness: C9 amended at the code QQQQ and at the node nodeNoType
lacking a typeIdentifier attr. -/
theorem C9_type_identifier_mapping_witness :
    StreamContent.fromId "QQQQ" =
      .error (.unsupportedStreamType "unsupported stream type") ∧
    processStreamNode [] nodeNoType =
      .error (.general "missing stream node type identifier") := by
  constructor
  · exact C9_type_identifier_mapping.2.2.2.2.1 "QQQQ"
      (by decide) (by decide) (by decide) (by decide)
  · exact C9_type_identifier_mapping.2.2.2.2.2.2.1 [] nodeNoType "3" 3
      (by decide) rfl rfl rfl

end Aedat
